import Mathlib

/-!
Verification of the `app/ml` feature/prediction pipeline of the
fantasy-basketball backend, by a shallow embedding of the Python source
into Lean.

Conventions used throughout this development:

* Calendar dates are modelled as integer day numbers (`Int`); Python
  `timedelta(days = n)` arithmetic becomes integer subtraction, and
  `(d1 - d2).days` is `d1 - d2`.
* Machine floats are modelled by exact arithmetic: `ℚ` wherever the source
  only uses field operations, `ℝ` where a square root is involved
  (the ensemble uncertainty formula).
* `pandas`/`numpy` column aggregates are modelled on Lean lists
  (`mean` = sum / length, `Series.std` = sample standard deviation with
  `ddof = 1`, `NaN` for fewer than two rows, modelled by `Option`).
* The square root used inside the sample standard deviation is kept
  abstract as a parameter `f : ℚ → ℚ` of the feature builder: the claims
  about the feature builder (leakage, purity, error paths) are insensitive
  to the numeric interpretation of that root, and both runs being compared
  always share the same `f`.
* Python dicts are modelled as association lists in insertion order
  (the feature dicts have pairwise-distinct keys, and the registry dict
  keeps first-insertion position on key update).
-/

/-- A value stored in a feature dict: the source stores Python floats/ints
(modelled by `ℚ`) and booleans. -/
inductive FVal where
  | num (q : ℚ)
  | bool (b : Bool)
deriving DecidableEq, Repr

/-- The feature dict produced by the builders: an insertion-ordered
association list with pairwise-distinct keys. -/
abbrev FeatureMap := List (String × FVal)

deriving instance DecidableEq for Except

/-- `app/models/player.py` `Player`, restricted to the columns the ML
pipeline reads: `id`, `position`, `birth_date`. -/
structure Player where
  id : Nat
  position : Option String
  birth_date : Option Int
deriving DecidableEq, Repr

/-- One row of the historical stats store as the feature engineer reads it
(`FeatureEngineer._get_player_stats`): a player id, a game date, and the
fourteen nullable stat columns that are copied into the DataFrame. -/
structure StatRow where
  player_id : Nat
  game_date : Int
  minutes : Option ℚ
  points : Option ℚ
  rebounds : Option ℚ
  assists : Option ℚ
  steals : Option ℚ
  blocks : Option ℚ
  turnovers : Option ℚ
  field_goals_made : Option ℚ
  field_goals_attempted : Option ℚ
  three_pointers_made : Option ℚ
  three_pointers_attempted : Option ℚ
  free_throws_made : Option ℚ
  free_throws_attempted : Option ℚ
  fantasy_points : Option ℚ
deriving DecidableEq, Repr

/-- A DataFrame row after `_get_player_stats` null-coalescing (`s.col or 0`). -/
structure StatRec where
  game_date : Int
  minutes : ℚ
  points : ℚ
  rebounds : ℚ
  assists : ℚ
  steals : ℚ
  blocks : ℚ
  turnovers : ℚ
  field_goals_made : ℚ
  field_goals_attempted : ℚ
  three_pointers_made : ℚ
  three_pointers_attempted : ℚ
  free_throws_made : ℚ
  free_throws_attempted : ℚ
  fantasy_points : ℚ
deriving DecidableEq, Repr

/-- The record built for each fetched row in `_get_player_stats`
(each column is `s.col or 0`). -/
def StatRow.toRec (r : StatRow) : StatRec where
  game_date := r.game_date
  minutes := r.minutes.getD 0
  points := r.points.getD 0
  rebounds := r.rebounds.getD 0
  assists := r.assists.getD 0
  steals := r.steals.getD 0
  blocks := r.blocks.getD 0
  turnovers := r.turnovers.getD 0
  field_goals_made := r.field_goals_made.getD 0
  field_goals_attempted := r.field_goals_attempted.getD 0
  three_pointers_made := r.three_pointers_made.getD 0
  three_pointers_attempted := r.three_pointers_attempted.getD 0
  free_throws_made := r.free_throws_made.getD 0
  free_throws_attempted := r.free_throws_attempted.getD 0
  fantasy_points := r.fantasy_points.getD 0

/-- `FeatureEngineer.ROLLING_WINDOWS`. -/
def ROLLING_WINDOWS : List Nat := [3, 5, 10, 15, 30]

/-- `FeatureEngineer.STAT_COLUMNS`, each name paired with its column
selector, in source order. -/
def STAT_COLUMNS : List (String × (StatRec → ℚ)) :=
  [("points", StatRec.points), ("rebounds", StatRec.rebounds),
   ("assists", StatRec.assists), ("steals", StatRec.steals),
   ("blocks", StatRec.blocks), ("turnovers", StatRec.turnovers),
   ("minutes", StatRec.minutes),
   ("field_goals_made", StatRec.field_goals_made),
   ("field_goals_attempted", StatRec.field_goals_attempted),
   ("three_pointers_made", StatRec.three_pointers_made),
   ("three_pointers_attempted", StatRec.three_pointers_attempted),
   ("free_throws_made", StatRec.free_throws_made),
   ("free_throws_attempted", StatRec.free_throws_attempted),
   ("fantasy_points", StatRec.fantasy_points)]

/-- `FeatureEngineer.RATIO_COLUMNS`: percentage name, makes column,
attempts column. -/
def RATIO_COLUMNS : List (String × (StatRec → ℚ) × (StatRec → ℚ)) :=
  [("field_goal_pct", StatRec.field_goals_made, StatRec.field_goals_attempted),
   ("three_point_pct", StatRec.three_pointers_made, StatRec.three_pointers_attempted),
   ("free_throw_pct", StatRec.free_throws_made, StatRec.free_throws_attempted)]

/-- Column mean (`pandas` `Series.mean`, call sites only use it on
nonempty frames). -/
def qmean (l : List ℚ) : ℚ := l.sum / (l.length : ℚ)

/-- Mean of a selected column over the frame. -/
def colMean (stats : List StatRec) (sel : StatRec → ℚ) : ℚ :=
  qmean (stats.map sel)

/-- The last `n` rows of an ascending frame (`DataFrame.tail(n)`). -/
def lastN {α : Type} (n : Nat) (l : List α) : List α :=
  l.drop (l.length - n)

/-- Sample variance with `ddof = 1` (the square of `pandas` `Series.std`),
only used on frames with at least two rows. -/
def sampleVariance (l : List ℚ) : ℚ :=
  ((l.map (fun x => (x - qmean l) ^ 2)).sum) / ((l.length : ℚ) - 1)

/-- `FeatureEngineer._get_player_stats`: fetch the player's rows with
`start_date ≤ game_date < end_date`, null-coalesce each column, and deliver
the frame sorted ascending by game date.  (The source fetches descending
from the store and re-sorts ascending in pandas; the composite is modelled
as one stable ascending sort of the filtered store.) -/
def getPlayerStats (db : List StatRow) (pid : Nat) (start_date end_date : Int) :
    List StatRec :=
  ((db.filter (fun r =>
      (r.player_id == pid && decide (start_date ≤ r.game_date)) &&
        decide (r.game_date < end_date))).map StatRow.toRec).insertionSort
    (fun a b => a.game_date ≤ b.game_date)

/-- `FeatureEngineer._build_player_info_features`: one-hot position flags
and the age feature.  `player_age` is computed from the wall-clock date
`date.today()`, passed here explicitly as `today`; `/ 365.25` is `* 4 / 1461`. -/
def infoFeatures (player : Player) (today : Int) : FeatureMap :=
  [("player_position_pg", FVal.bool (player.position == some "PG")),
   ("player_position_sg", FVal.bool (player.position == some "SG")),
   ("player_position_sf", FVal.bool (player.position == some "SF")),
   ("player_position_pf", FVal.bool (player.position == some "PF")),
   ("player_position_c", FVal.bool (player.position == some "C")),
   ("player_age", FVal.num (match player.birth_date with
      | some b => ((today - b : Int) : ℚ) * 4 / 1461
      | none => 27))]

/-- `FeatureEngineer._build_rolling_features`: per window, the mean of each
stat column over the most recent `min(window, len)` games, then the three
shooting percentages per window as `made / attempted` over the window
(`0.0` when `attempted = 0`). -/
def rollingFeatures (stats : List StatRec) : FeatureMap :=
  (ROLLING_WINDOWS.flatMap (fun w =>
    let recent := if w ≤ stats.length then lastN w stats else stats
    STAT_COLUMNS.map (fun c =>
      (c.1 ++ "_avg_" ++ toString w ++ "g", FVal.num (colMean recent c.2)))))
  ++ (RATIO_COLUMNS.flatMap (fun rc =>
    ROLLING_WINDOWS.map (fun w =>
      let recent := if w ≤ stats.length then lastN w stats else stats
      let total_made := (recent.map rc.2.1).sum
      let total_attempted := (recent.map rc.2.2).sum
      (rc.1 ++ "_" ++ toString w ++ "g",
        FVal.num (if 0 < total_attempted then total_made / total_attempted else 0)))))

/-- `FeatureEngineer._build_trend_features`: all zero below ten games,
otherwise `(mean(last 5) - mean(all)) / mean(all)` per stat (`0.0` when the
season mean is not positive). -/
def trendFeatures (stats : List StatRec) : FeatureMap :=
  if stats.length < 10 then
    STAT_COLUMNS.map (fun c => (c.1 ++ "_trend", FVal.num 0))
  else
    STAT_COLUMNS.map (fun c =>
      let recent_avg := colMean (lastN 5 stats) c.2
      let season_avg := colMean stats c.2
      (c.1 ++ "_trend",
        FVal.num (if 0 < season_avg then (recent_avg - season_avg) / season_avg else 0)))

/-- `FeatureEngineer._build_consistency_features`: per stat the coefficient
of variation `std / mean` (zero when the mean is not positive or the sample
std is `NaN`, i.e. fewer than two rows) and the raw std (zero when `NaN`).
`f` interprets the square root inside the sample standard deviation. -/
def consistencyFeatures (f : ℚ → ℚ) (stats : List StatRec) : FeatureMap :=
  STAT_COLUMNS.flatMap (fun c =>
    let m := colMean stats c.2
    let stdOpt : Option ℚ :=
      if 2 ≤ stats.length then some (f (sampleVariance (stats.map c.2))) else none
    [(c.1 ++ "_cv", FVal.num (match stdOpt with
        | some s => if 0 < m then s / m else 0
        | none => 0)),
     (c.1 ++ "_std", FVal.num (stdOpt.getD 0))])

/-- `FeatureEngineer._build_usage_features`. -/
def usageFeatures (stats : List StatRec) : FeatureMap :=
  let total_assists := (stats.map StatRec.assists).sum
  let total_turnovers := (stats.map StatRec.turnovers).sum
  [("games_played", FVal.num (stats.length : ℚ)),
   ("avg_minutes_season", FVal.num (colMean stats StatRec.minutes)),
   ("fga_per_game", FVal.num (colMean stats StatRec.field_goals_attempted)),
   ("fta_per_game", FVal.num (colMean stats StatRec.free_throws_attempted)),
   ("ast_to_ratio",
     FVal.num (if 0 < total_turnovers then total_assists / total_turnovers
               else total_assists))]

/-- `FeatureEngineer._build_rest_features`: days since the most recent game,
trailing 7-day and 14-day game counts, back-to-back flag. -/
def restFeatures (stats : List StatRec) (as_of_date : Int) : FeatureMap :=
  if stats.isEmpty then
    [("days_rest", FVal.num 3), ("games_last_7d", FVal.num 0),
     ("games_last_14d", FVal.num 0), ("back_to_back", FVal.bool false)]
  else
    let last_game_date := ((stats.map StatRec.game_date).max?).getD 0
    let days_rest := as_of_date - last_game_date
    [("days_rest", FVal.num (days_rest : ℚ)),
     ("games_last_7d",
       FVal.num (((stats.filter (fun s => decide (as_of_date - 7 ≤ s.game_date))).length : ℚ))),
     ("games_last_14d",
       FVal.num (((stats.filter (fun s => decide (as_of_date - 14 ≤ s.game_date))).length : ℚ))),
     ("back_to_back", FVal.bool (days_rest == 1))]

/-- `FeatureEngineer._build_form_features`: below three games the momentum
and streak flags default; otherwise fantasy-point momentum against the
season mean and streak flags requiring all of the last three games strictly
above/below the season mean. -/
def formFeatures (stats : List StatRec) : FeatureMap :=
  if stats.length < 3 then
    [("hot_streak", FVal.bool false), ("cold_streak", FVal.bool false),
     ("fantasy_momentum", FVal.num 0)]
  else
    let recent_3 := lastN 3 stats
    let season_avg := colMean stats StatRec.fantasy_points
    let recent_avg := colMean recent_3 StatRec.fantasy_points
    [("fantasy_momentum",
       FVal.num (if 0 < season_avg then (recent_avg - season_avg) / season_avg else 0)),
     ("hot_streak", FVal.bool (recent_3.all (fun g => decide (season_avg < g.fantasy_points)))),
     ("cold_streak", FVal.bool (recent_3.all (fun g => decide (g.fantasy_points < season_avg))))]

/-- `FeatureEngineer._get_empty_features`: the info features followed by the
all-default stat features, in the source's loop order. -/
def emptyFeatures (player : Player) (today : Int) : FeatureMap :=
  infoFeatures player today
  ++ (ROLLING_WINDOWS.flatMap (fun w =>
       STAT_COLUMNS.map (fun c => (c.1 ++ "_avg_" ++ toString w ++ "g", FVal.num 0))
       ++ RATIO_COLUMNS.map (fun rc => (rc.1 ++ "_" ++ toString w ++ "g", FVal.num 0)))
  ++ (STAT_COLUMNS.flatMap (fun c =>
       [(c.1 ++ "_trend", FVal.num 0), (c.1 ++ "_cv", FVal.num 0),
        (c.1 ++ "_std", FVal.num 0)])
  ++ [("games_played", FVal.num 0), ("avg_minutes_season", FVal.num 0),
      ("fga_per_game", FVal.num 0), ("fta_per_game", FVal.num 0),
      ("ast_to_ratio", FVal.num 0), ("days_rest", FVal.num 3),
      ("games_last_7d", FVal.num 0), ("games_last_14d", FVal.num 0),
      ("back_to_back", FVal.bool false), ("hot_streak", FVal.bool false),
      ("cold_streak", FVal.bool false), ("fantasy_momentum", FVal.num 0)]))

/-- `self.db.query(Player).filter(Player.id == player_id).first()`. -/
def findPlayer (players : List Player) (pid : Nat) : Option Player :=
  players.find? (fun p => p.id == pid)

/-- The nonempty-history body of `build_player_features`: the successive
`features.update(...)` calls over dicts with pairwise-distinct keys, i.e.
concatenation in call order. -/
def buildFromStats (f : ℚ → ℚ) (player : Player) (stats : List StatRec)
    (as_of_date today : Int) : FeatureMap :=
  infoFeatures player today
    ++ (rollingFeatures stats ++ (trendFeatures stats
    ++ (consistencyFeatures f stats ++ (usageFeatures stats
    ++ (restFeatures stats as_of_date ++ formFeatures stats)))))

/-- `FeatureEngineer.build_player_features`: raises when the player row is
missing, returns the all-default vector on empty history, otherwise the
assembled feature dict.  `today` is the wall-clock date read by
`date.today()` inside the age feature. -/
def build_player_features (f : ℚ → ℚ) (players : List Player) (db : List StatRow)
    (player_id : Nat) (as_of_date lookback_days today : Int) :
    Except String FeatureMap :=
  match findPlayer players player_id with
  | none => Except.error (s!"Player {player_id} not found")
  | some player =>
    let stats := getPlayerStats db player_id (as_of_date - lookback_days) as_of_date
    if stats.isEmpty then Except.ok (emptyFeatures player today)
    else Except.ok (buildFromStats f player stats as_of_date today)

/-!
`app/ml/models/predictor.py` and `app/ml/models/ensemble.py`.

A fitted gradient-boosted regressor is opaque to this development: it is
modelled as an arbitrary function from the feature input to its raw scalar
output.  The claims under scrutiny concern only the post-processing applied
to those raw outputs, which this section embeds exactly.  Predictions are
stated per input row (the numpy operations in the source are elementwise).
-/

/-- A fitted `StatPredictor`: the point model plus the optional pair of
quantile models (`model_lower`/`model_upper`). -/
structure StatPredictorM (α : Type) where
  model : α → ℚ
  model_lower : Option (α → ℚ)
  model_upper : Option (α → ℚ)

/-- `StatPredictor.predict`: raw point output clipped with
`np.clip(predictions, 0, None)`. -/
def statPredict {α : Type} (M : StatPredictorM α) (x : α) : ℚ :=
  max (M.model x) 0

/-- `StatPredictor.predict_with_uncertainty`: the raw point output together
with quantile bounds when both quantile models exist, else the
`point ± 1.645 × (0.2 × point)` fallback; then `lower` is clipped to `≥ 0`
and `upper` is clipped to `≥ lower`.  The returned point estimate is the
raw model output (the source does not clip it on this path). -/
def statPredictWithUncertainty {α : Type} (M : StatPredictorM α) (x : α) :
    ℚ × ℚ × ℚ :=
  let p := M.model x
  let raw : ℚ × ℚ :=
    match M.model_lower, M.model_upper with
    | some ml, some mu => (ml x, mu x)
    | _, _ => (p - 1.645 * (0.2 * p), p + 1.645 * (0.2 * p))
  let lower := max raw.1 0
  let upper := max raw.2 lower
  (p, lower, upper)

/-- A fitted `EnsemblePredictor`: the two member models and the weight
mapping `{"xgboost": w_xgb, "lightgbm": w_lgb}`. -/
structure EnsembleM (α : Type) where
  xgb_model : α → ℝ
  lgb_model : α → ℝ
  w_xgb : ℝ
  w_lgb : ℝ

/-- `EnsemblePredictor.predict`: weighted average clipped to `≥ 0`. -/
def ensemblePredict {α : Type} (M : EnsembleM α) (x : α) : ℝ :=
  max (M.w_xgb * M.xgb_model x + M.w_lgb * M.lgb_model x) 0

/-- `EnsemblePredictor.predict_with_uncertainty`: the unclipped weighted
point estimate; `model_std = |xgb - lgb| / 2`;
`base_uncertainty = 0.15 × point`; `total = sqrt(model_std² + base²)`;
`lower = clip(point - 1.645·total, 0, None)`; `upper = point + 1.645·total`
(the source clips neither the point nor the upper bound on this path). -/
noncomputable def ensemblePredictWithUncertainty {α : Type} (M : EnsembleM α)
    (x : α) : ℝ × ℝ × ℝ :=
  let xp := M.xgb_model x
  let lp := M.lgb_model x
  let p := M.w_xgb * xp + M.w_lgb * lp
  let model_std := |xp - lp| / 2
  let base_uncertainty := p * 0.15
  let total_uncertainty := Real.sqrt (model_std ^ 2 + base_uncertainty ^ 2)
  (p, max (p - 1.645 * total_uncertainty) 0, p + 1.645 * total_uncertainty)

/-- `EnsemblePredictor.DEFAULT_WEIGHTS`: xgboost 0.6, lightgbm 0.4. -/
def DEFAULT_WEIGHTS : ℚ × ℚ := (0.6, 0.4)

/-- `EnsemblePredictor.__init__` weight handling: default when absent, then
`raise ValueError("Weights must sum to 1.0")` when
`abs(sum(weights) - 1.0) > 0.01`. -/
def ensembleInitWeights (weights : Option (ℚ × ℚ)) : Except String (ℚ × ℚ) :=
  let w := weights.getD DEFAULT_WEIGHTS
  if 1 / 100 < |w.1 + w.2 - 1| then Except.error "Weights must sum to 1.0"
  else Except.ok w

/-- The grid `np.arange(0.3, 0.8, 0.05)` of candidate xgboost weights. -/
def weight_grid : List ℚ :=
  [0.3, 0.35, 0.4, 0.45, 0.5, 0.55, 0.6, 0.65, 0.7, 0.75]

/-- `np.mean` over a real vector. -/
noncomputable def qmeanR (l : List ℝ) : ℝ := l.sum / (l.length : ℝ)

/-- Validation RMSE of a weighted combination
(`np.sqrt(np.mean((ensemble_pred - y_val) ** 2))`). -/
noncomputable def weightedRmse (w : ℝ) (xgb_pred lgb_pred y_val : List ℝ) : ℝ :=
  Real.sqrt (qmeanR ((List.zipWith (fun a b => w * a + (1 - w) * b) xgb_pred lgb_pred).zipWith
    (fun p y => (p - y) ^ 2) y_val))

/-- `EnsemblePredictor._optimize_weights`: grid search keeping the weight
with the strictly smallest RMSE (initial best is `float("inf")`, modelled
as `none`), then `weights = {"xgboost": best, "lightgbm": 1 - best}`. -/
noncomputable def optimize_weights (xgb_pred lgb_pred y_val : List ℝ) : ℝ × ℝ :=
  let best := weight_grid.foldl (fun (acc : Option ℝ × ℝ) wq =>
    let w : ℝ := (wq : ℝ)
    let rmse := weightedRmse w xgb_pred lgb_pred y_val
    match acc.1 with
    | none => (some rmse, w)
    | some b => if rmse < b then (some rmse, w) else acc) (none, 0.5)
  (best.2, 1 - best.2)

/-!
`app/services/nba/validators.py` and `app/services/nba/boxscore.py`:
the two fantasy-points calculators.  Box-score counting stats are integers;
`stats.get(key, 0) or 0` null-coalesces a missing/None entry to 0.
Python `round(x, 1)` is modelled by `pyRound1`; on every input reachable
here the scaled value `10·x` is an integer, so no rounding tie can arise
and the half-even/half-up distinction is immaterial.
-/

/-- Python `round(x, 1)` (exact on the inputs produced by the calculators
below, where `10·x` is always an integer). -/
def pyRound1 (q : ℚ) : ℚ := (round (10 * q) : ℚ) / 10

/-- `PlayerStatsValidator._calculate_fantasy_points` (validators.py):
`round(pts + reb * 1.2 + ast * 1.5 + stl * 3 + blk * 3 - tov, 1)`. -/
def validators_calculate_fantasy_points
    (pts reb ast stl blk tov : Option ℤ) : ℚ :=
  pyRound1 ((pts.getD 0 : ℚ) + (reb.getD 0 : ℚ) * 1.2 + (ast.getD 0 : ℚ) * 1.5
    + (stl.getD 0 : ℚ) * 3 + (blk.getD 0 : ℚ) * 3 - (tov.getD 0 : ℚ))

/-- `boxscore._calculate_fantasy_points` (boxscore.py):
`round(pts * 1.0 + reb * 1.2 + ast * 1.5 + stl * 3.0 + blk * 3.0 + tov * -1.0, 1)`. -/
def boxscore_calculate_fantasy_points
    (pts reb ast stl blk tov : Option ℤ) : ℚ :=
  pyRound1 ((pts.getD 0 : ℚ) * 1 + (reb.getD 0 : ℚ) * 1.2 + (ast.getD 0 : ℚ) * 1.5
    + (stl.getD 0 : ℚ) * 3 + (blk.getD 0 : ℚ) * 3 + (tov.getD 0 : ℚ) * (-1))

/-!
`app/ml/serving/model_registry.py`.  The registry file `self._registry` is
a JSON dict keyed by model id; it is modelled as an insertion-ordered
association list with unique keys (a Python dict).  Only the fields the
activation logic reads are carried.
-/

/-- One registry entry (the fields relevant to activation). -/
structure RegEntry where
  model_name : String
  version : String
  stat_type : String
  is_active : Bool
deriving DecidableEq, Repr

/-- The registry mapping `model_id → entry`. -/
abbrev Registry := List (String × RegEntry)

/-- Python dict assignment `d[k] = v`: update in place when the key exists
(keeping its position), else append. -/
def dictSet (reg : Registry) (k : String) (v : RegEntry) : Registry :=
  if reg.any (fun kv => kv.1 == k) then
    reg.map (fun kv => if kv.1 == k then (k, v) else kv)
  else reg ++ [(k, v)]

/-- `ModelRegistry.register_model`: `model_id = f"{model_name}_{version}"`,
entry stored with `is_active: True` unconditionally; returns the new
registry and the model id. -/
def register_model (reg : Registry) (model_name version stat_type : String) :
    Registry × String :=
  let model_id := model_name ++ "_" ++ version
  (dictSet reg model_id
    { model_name := model_name, version := version,
      stat_type := stat_type, is_active := true }, model_id)

/-- `ModelRegistry.set_active_model`: `False` when the id is absent;
otherwise every entry sharing the target's `stat_type` gets
`is_active = (mid == model_id)` and the swap reports `True`. -/
def set_active_model (reg : Registry) (model_id : String) : Registry × Bool :=
  match reg.lookup model_id with
  | none => (reg, false)
  | some entry =>
    (reg.map (fun kv =>
      if kv.2.stat_type == entry.stat_type then
        (kv.1, { kv.2 with is_active := kv.1 == model_id })
      else kv), true)

/-- `ModelRegistry.delete_model` (registry mutation only; file removal is
an external effect): `False` when absent, else the entry is removed. -/
def delete_model (reg : Registry) (model_id : String) : Registry × Bool :=
  if (reg.lookup model_id).isSome then
    (reg.filter (fun kv => kv.1 != model_id), true)
  else (reg, false)

/-- Number of entries of a given stat type flagged active. -/
def activeCount (reg : Registry) (stat_type : String) : Nat :=
  (reg.filter (fun kv => kv.2.stat_type == stat_type && kv.2.is_active)).length

/-!
`app/ml/training/data_loader.py` `TrainingDataLoader.load_training_data`.

The loader walks the distinct game dates in range; for each date it takes
the eligible players' rows on that exact date (`_get_players_on_date`) and
pairs the feature vector built as of that date with the selected target.
`_get_players_on_date` selects the column `PlayerGameStats.fantasy_points`
— not the column named by `stat_type` — so the embedded selector reads the
`fantasy_points` field of the row; the `stat_type` argument only names the
returned Series.
-/

/-- `TrainingDataLoader.FEATURE_LOOKBACK`. -/
def FEATURE_LOOKBACK : Int := 90

/-- `TrainingDataLoader._get_eligible_players` membership: at least
`min_games` rows inside `[start_date, end_date]`. -/
def isEligiblePlayer (db : List StatRow) (start_date end_date : Int)
    (min_games : Nat) (pid : Nat) : Bool :=
  min_games ≤ (db.filter (fun r =>
    (r.player_id == pid && decide (start_date ≤ r.game_date)) &&
      decide (r.game_date ≤ end_date))).length

/-- `TrainingDataLoader._get_game_dates`: distinct game dates in range,
ascending. -/
def getGameDates (db : List StatRow) (start_date end_date : Int) : List Int :=
  (((db.filter (fun r =>
      decide (start_date ≤ r.game_date) && decide (r.game_date ≤ end_date))).map
    StatRow.game_date).dedup).insertionSort (fun a b => a ≤ b)

/-- `TrainingDataLoader._get_players_on_date`: eligible players' rows on the
exact date whose `fantasy_points` is not NULL, each delivered as
`(player_id, fantasy_points)` — the requested `stat_type` is not consulted. -/
def getPlayersOnDate (db : List StatRow) (start_date end_date : Int)
    (min_games : Nat) (d : Int) : List (Nat × ℚ) :=
  (db.filter (fun r =>
    (isEligiblePlayer db start_date end_date min_games r.player_id &&
      r.game_date == d) && r.fantasy_points.isSome)).map
    (fun r => (r.player_id, r.fantasy_points.getD 0))

/-- `TrainingDataLoader.load_training_data`: walk the dates, build features
as of each date (failures skipped, empty feature dicts skipped), and pair
each produced feature vector with the value from `_get_players_on_date`.
The `stat_type` parameter only names the target Series; the metadata
columns added then dropped again in the source are not carried. -/
def load_training_data (f : ℚ → ℚ) (players : List Player) (db : List StatRow)
    (start_date end_date : Int) (stat_type : String) (min_games : Nat)
    (today : Int) : List (FeatureMap × ℚ) :=
  (getGameDates db start_date end_date).flatMap (fun d =>
    (getPlayersOnDate db start_date end_date min_games d).filterMap
      (fun pa =>
        match build_player_features f players db pa.1 d FEATURE_LOOKBACK today with
        | Except.error _ => none
        | Except.ok features =>
          if features.isEmpty then none else some (features, pa.2)))

/-!
`app/ml/training/trainer.py` `ModelTrainer.train_model`.

Everything after the sample-count guard (model fitting, evaluation,
cross-validation) happens inside external ML libraries; it is represented
by an action trace so that the claim "nothing is fitted or registered on
the failure path" is directly visible.  The registry mutations themselves
are the real embedded operations from `model_registry.py`.
-/

/-- The externally visible actions of a training run, in order. -/
inductive TrainAction where
  | fitModel
  | registerModel (model_id : String)
  | setActive (model_id : String)
deriving DecidableEq, Repr

/-- `ModelTrainer.train_model` after the training set has been assembled:
`raise ValueError(f"Insufficient training data: {n} samples")` when the
training set has fewer than 100 examples — before any model is constructed,
fitted or registered; otherwise fit, register (with the generated version)
and activate.  Returns the resulting registry, the action trace, and the
outcome. -/
def train_model (reg : Registry) (train_examples : List (FeatureMap × ℚ))
    (stat_type model_type version : String) :
    Registry × List TrainAction × Except String String :=
  let n := train_examples.length
  if n < 100 then
    (reg, [], Except.error (s!"Insufficient training data: {n} samples"))
  else
    let r1 := register_model reg (stat_type ++ "_" ++ model_type) version stat_type
    let r2 := set_active_model r1.1 r1.2
    (r2.1, [TrainAction.fitModel, TrainAction.registerModel r1.2,
            TrainAction.setActive r1.2], Except.ok r1.2)

/-!
`app/ml/serving/prediction_service.py`.

The service imports `from app.models.prediction import Prediction`, but
`app/models/prediction.py` defines only `PlayerPrediction` (JSONB
`predictions` blob keyed by `(player_id, game_date)`, with no `stat_type`,
`prediction_date` or `predicted_value` columns).  The cache rows below
carry the columns `PlayerPrediction` actually has that the lookup touches;
`hasattr(p, "stat_type")` is `False` for every such row, and the
`prediction_date` filter is read as the `game_date` column (the only date
column the table has).
-/

/-- A persisted `PlayerPrediction` row, restricted to the columns the cache
lookup touches.  Timestamps are in hours so the 4-hour TTL is integral. -/
structure PlayerPredictionRow where
  player_id : Nat
  game_date : Int
  created_at_hours : Int
deriving DecidableEq, Repr

/-- A `PredictionResult` as reconstructed from the cache (placeholder
payload; the reconstruction code is unreachable, see
`getCachedPredictions`). -/
structure CachedResult where
  player_id : Nat
  stat_type : String
deriving DecidableEq, Repr

/-- `PredictionService.CACHE_TTL_HOURS`. -/
def CACHE_TTL_HOURS : Int := 4

/-- `PredictionService._get_cached_predictions`: rows for the key and
within the TTL; `None` when none; otherwise the cached stat types are
`{p.stat_type for p in cached if hasattr(p, "stat_type")}` — empty, since
no `PlayerPrediction` row has a `stat_type` attribute — the requested
types must be a subset of that; the result rows are then those with
`stat_type in stat_types` — again none — and an empty result list is
returned as `None`. -/
def getCachedPredictions (cache : List PlayerPredictionRow) (pid : Nat)
    (game_date : Int) (stat_types : List String) (now_hours : Int) :
    Option (List CachedResult) :=
  let cutoff := now_hours - CACHE_TTL_HOURS
  let cached := cache.filter (fun r =>
    (r.player_id == pid && r.game_date == game_date) &&
      decide (cutoff ≤ r.created_at_hours))
  if cached.isEmpty then none
  else
    let cached_types : List String := []
    if stat_types.all (fun s => cached_types.contains s) then
      let results : List CachedResult := []
      if results.isEmpty then none else some results
    else none

/-- The observable steps of `predict_player_stats`. -/
inductive ServeAction where
  | buildFeatures
  | predictStat (stat_type : String)
deriving DecidableEq, Repr

/-- The default stat list `["fantasy_points", "points", "rebounds", "assists"]`. -/
def defaultStatTypes : List String :=
  ["fantasy_points", "points", "rebounds", "assists"]

/-- `PredictionService.predict_player_stats`, down to the cache decision:
on a cache hit the cached results are returned with no further work;
otherwise the feature build and the per-stat predictions run (their
outcomes, produced by the models, are abstracted as `built`, since the
claim under scrutiny concerns only whether the cache short-circuits). -/
def predict_player_stats (cache : List PlayerPredictionRow) (pid : Nat)
    (game_date : Int) (stat_types : Option (List String)) (force_refresh : Bool)
    (now_hours : Int) (built : List CachedResult) :
    List CachedResult × List ServeAction :=
  let sts := stat_types.getD defaultStatTypes
  let buildPath : List CachedResult × List ServeAction :=
    (built, ServeAction.buildFeatures :: sts.map ServeAction.predictStat)
  if force_refresh then buildPath
  else
    match getCachedPredictions cache pid game_date sts now_hours with
    | some c => (c, [])
    | none => buildPath

/-!
Concrete data used by witnesses and counterexamples below.
-/

/-- A single-player roster used by the concrete instances. -/
def onePlayerRoster : List Player := [{ id := 1, position := some "PG", birth_date := none }]

/-- A player with a known birth date (used to exhibit the wall-clock
dependence of the age feature). -/
def bornPlayer : Player := { id := 1, position := none, birth_date := some 0 }

/-- An ordinary box-score row for player 1, dated day 95. -/
def ordinaryRow : StatRow :=
  { player_id := 1, game_date := 95, minutes := some 30, points := some 20,
    rebounds := some 10, assists := some 5, steals := some 2, blocks := some 1,
    turnovers := some 3, field_goals_made := some 8,
    field_goals_attempted := some 15, three_pointers_made := some 2,
    three_pointers_attempted := some 5, free_throws_made := some 2,
    free_throws_attempted := some 2, fantasy_points := some 40 }

/-- A synthetic extreme row for player 1 dated exactly on the as-of day 100
(the spec's leakage probe). -/
def extremeRow : StatRow :=
  { player_id := 1, game_date := 100, minutes := some 48, points := some 1000,
    rebounds := some 1000, assists := some 1000, steals := some 1000,
    blocks := some 1000, turnovers := some 0, field_goals_made := some 500,
    field_goals_attempted := some 500, three_pointers_made := some 100,
    three_pointers_attempted := some 100, free_throws_made := some 100,
    free_throws_attempted := some 100, fantasy_points := some 9999 }

/-- The roster used by the loader instance: player 1 with no birth date. -/
def loaderRoster : List Player := [{ id := 1, position := some "C", birth_date := none }]

/-- The record for the loader instance: on day 100 player 1 scores
`points = 10` while the derived `fantasy_points` is `45.5`. -/
def loaderRow : StatRow :=
  { player_id := 1, game_date := 100, minutes := some 30, points := some 10,
    rebounds := some 10, assists := some 5, steals := some 2, blocks := some 1,
    turnovers := some 3, field_goals_made := some 4,
    field_goals_attempted := some 10, three_pointers_made := some 0,
    three_pointers_attempted := some 2, free_throws_made := some 2,
    free_throws_attempted := some 2, fantasy_points := some 45.5 }

/-- A registered entry for stat type `points`, version v1, flagged active. -/
def entryV1 : RegEntry :=
  { model_name := "m", version := "v1", stat_type := "points", is_active := true }

/-- A second active entry for the same stat type. -/
def entryV2 : RegEntry :=
  { model_name := "m", version := "v2", stat_type := "points", is_active := true }

/-- A registry in which two entries of the same stat type are active (the
prior configuration used by the activation witness). -/
def twoActiveRegistry : Registry := [("m_v1", entryV1), ("m_v2", entryV2)]

/-!
Theorems.  Each claim `Cn` of the specification gets one main theorem,
preceded by helper lemmas where needed.
-/

/-- Helper: Python `round(x, 1)` is the identity whenever `10·x` is an
integer (in particular no rounding tie can occur, so the half-even /
half-up distinction is immaterial). -/
theorem pyRound1_eq_self (q : ℚ) (n : ℤ) (h : 10 * q = (n : ℚ)) : pyRound1 q = q := by
  unfold pyRound1
  rw [h, round_intCast, ← h]
  ring

/-- Claim C7: for every box-score line, the computed fantasy points equal
`points + rebounds·1.2 + assists·1.5 + steals·3 + blocks·3 − turnovers`,
in both implementations (validators.py and boxscore.py); in particular
`pts=20, reb=10, ast=5, stl=2, blk=1, tov=3` yields `45.5` and the
all-zero line yields `0.0`. -/
theorem C7_fantasy_points_formula :
    (∀ pts reb ast stl blk tov : Option ℤ,
      validators_calculate_fantasy_points pts reb ast stl blk tov
          = (pts.getD 0 : ℚ) + (reb.getD 0 : ℚ) * 1.2 + (ast.getD 0 : ℚ) * 1.5
            + (stl.getD 0 : ℚ) * 3 + (blk.getD 0 : ℚ) * 3 - (tov.getD 0 : ℚ)
        ∧ boxscore_calculate_fantasy_points pts reb ast stl blk tov
          = validators_calculate_fantasy_points pts reb ast stl blk tov)
  ∧ validators_calculate_fantasy_points (some 20) (some 10) (some 5) (some 2)
      (some 1) (some 3) = 45.5
  ∧ validators_calculate_fantasy_points (some 0) (some 0) (some 0) (some 0)
      (some 0) (some 0) = 0
  ∧ boxscore_calculate_fantasy_points (some 20) (some 10) (some 5) (some 2)
      (some 1) (some 3) = 45.5
  ∧ boxscore_calculate_fantasy_points (some 0) (some 0) (some 0) (some 0)
      (some 0) (some 0) = 0 := by
  have general : ∀ pts reb ast stl blk tov : Option ℤ,
      validators_calculate_fantasy_points pts reb ast stl blk tov
          = (pts.getD 0 : ℚ) + (reb.getD 0 : ℚ) * 1.2 + (ast.getD 0 : ℚ) * 1.5
            + (stl.getD 0 : ℚ) * 3 + (blk.getD 0 : ℚ) * 3 - (tov.getD 0 : ℚ)
        ∧ boxscore_calculate_fantasy_points pts reb ast stl blk tov
          = validators_calculate_fantasy_points pts reb ast stl blk tov := by
    intro pts reb ast stl blk tov
    set p : ℤ := pts.getD 0
    set r : ℤ := reb.getD 0
    set a : ℤ := ast.getD 0
    set s : ℤ := stl.getD 0
    set b : ℤ := blk.getD 0
    set t : ℤ := tov.getD 0
    have hv : validators_calculate_fantasy_points pts reb ast stl blk tov
        = (p : ℚ) + (r : ℚ) * 1.2 + (a : ℚ) * 1.5 + (s : ℚ) * 3 + (b : ℚ) * 3 - (t : ℚ) := by
      unfold validators_calculate_fantasy_points
      refine pyRound1_eq_self _ (10 * p + 12 * r + 15 * a + 30 * s + 30 * b - 10 * t) ?_
      push_cast
      ring
    have hb : boxscore_calculate_fantasy_points pts reb ast stl blk tov
        = (p : ℚ) + (r : ℚ) * 1.2 + (a : ℚ) * 1.5 + (s : ℚ) * 3 + (b : ℚ) * 3 - (t : ℚ) := by
      unfold boxscore_calculate_fantasy_points
      rw [show ((p : ℚ) * 1 + (r : ℚ) * 1.2 + (a : ℚ) * 1.5 + (s : ℚ) * 3 + (b : ℚ) * 3
          + (t : ℚ) * (-1))
        = (p : ℚ) + (r : ℚ) * 1.2 + (a : ℚ) * 1.5 + (s : ℚ) * 3 + (b : ℚ) * 3 - (t : ℚ) by ring]
      refine pyRound1_eq_self _ (10 * p + 12 * r + 15 * a + 30 * s + 30 * b - 10 * t) ?_
      push_cast
      ring
    exact ⟨hv, hb.trans hv.symm⟩
  refine ⟨general, ?_, ?_, ?_, ?_⟩
  · rw [(general _ _ _ _ _ _).1]; norm_num
  · rw [(general _ _ _ _ _ _).1]; norm_num
  · rw [(general _ _ _ _ _ _).2, (general _ _ _ _ _ _).1]; norm_num
  · rw [(general _ _ _ _ _ _).2, (general _ _ _ _ _ _).1]; norm_num

/-- Claim C8: ensemble weights always sum to 1 within tolerance 0.01 —
construction with a sum off by more than 0.01 fails with an error,
construction only succeeds on weights within the tolerance (the default
weights included), and re-optimization always returns a pair of the form
`(w, 1 - w)`, summing to exactly 1. -/
theorem C8_ensemble_weight_invariant :
    (∀ w : ℚ × ℚ, 1 / 100 < |w.1 + w.2 - 1| →
      ensembleInitWeights (some w) = Except.error "Weights must sum to 1.0")
  ∧ (∀ (w0 : Option (ℚ × ℚ)) (w : ℚ × ℚ),
      ensembleInitWeights w0 = Except.ok w → |w.1 + w.2 - 1| ≤ 1 / 100)
  ∧ ensembleInitWeights none = Except.ok DEFAULT_WEIGHTS
  ∧ (∀ xgb_pred lgb_pred y_val : List ℝ,
      (optimize_weights xgb_pred lgb_pred y_val).1
        + (optimize_weights xgb_pred lgb_pred y_val).2 = 1) := by
  refine ⟨?_, ?_, ?_, ?_⟩
  · intro w hw
    simp only [ensembleInitWeights, Option.getD_some]
    rw [if_pos hw]
  · intro w0 w hok
    simp only [ensembleInitWeights] at hok
    split at hok
    · cases hok
    · next h =>
      obtain rfl := Except.ok.inj hok
      simpa using le_of_not_lt h
  · simp [ensembleInitWeights, DEFAULT_WEIGHTS]
    norm_num
  · intro xp lp y
    simp only [optimize_weights]
    ring

/-- Claim C9: whenever the assembled training set has fewer than 100
examples, `ModelTrainer.train_model` raises
`Insufficient training data` before any model is fitted or registered
(empty action trace) and leaves the registry unchanged. -/
theorem C9_insufficient_data_fail_fast (reg : Registry)
    (train_examples : List (FeatureMap × ℚ)) (stat_type model_type version : String)
    (h : train_examples.length < 100) :
    train_model reg train_examples stat_type model_type version
      = (reg, [],
         Except.error (s!"Insufficient training data: {train_examples.length} samples")) := by
  simp [train_model, h]

/-- Witness for C9 at a concrete empty training set. -/
theorem C9_witness :
    ([] : List (FeatureMap × ℚ)).length < 100
    ∧ train_model [] [] "fantasy_points" "ensemble" "20240101_000000"
      = ([], [], Except.error "Insufficient training data: 0 samples") :=
  ⟨by decide,
   by
     rw [C9_insufficient_data_fail_fast [] [] "fantasy_points" "ensemble"
       "20240101_000000" (by decide)]
     rfl⟩

/-- Claim C10: `build_player_features` raises `Player ... not found` when no
player row matches the given id, for every as-of date, lookback and history
— it never falls through to the default/zero feature vector. -/
theorem C10_unknown_player_raises (f : ℚ → ℚ) (players : List Player)
    (db : List StatRow) (pid : Nat) (as_of_date lookback_days today : Int)
    (h : ∀ p ∈ players, p.id ≠ pid) :
    build_player_features f players db pid as_of_date lookback_days today
      = Except.error (s!"Player {pid} not found") := by
  have hfind : findPlayer players pid = none := by
    refine List.find?_eq_none.mpr (fun p hp => ?_)
    simpa using h p hp
  simp [build_player_features, hfind]

/-- Witness for C10: an empty roster (and also a roster with a different
player) yields the error, not the empty-feature vector. -/
theorem C10_witness :
    (∀ p ∈ ([] : List Player), p.id ≠ 7)
    ∧ build_player_features (fun q => q) [] [ordinaryRow] 7 100 90 200
      = Except.error "Player 7 not found" :=
  ⟨by simp,
   by
     rw [C10_unknown_player_raises (fun q => q) [] [ordinaryRow] 7 100 90 200
       (by simp)]
     rfl⟩

/-- Claim C6 (code bug): the cache lookup of
`PredictionService._get_cached_predictions` can never report a hit —
the service imports a `Prediction` model that does not exist, and against
the schema that does exist (`PlayerPrediction`, no `stat_type` column) the
`hasattr` filter leaves the cached-type set empty — so
`predict_player_stats` always takes the feature-build path, for every
cache contents, key, requested stat list, and clock. -/
theorem C6_cache_lookup_never_hits :
    ∀ (cache : List PlayerPredictionRow) (pid : Nat) (game_date : Int)
      (stat_types : List String) (now_hours : Int) (built : List CachedResult),
      getCachedPredictions cache pid game_date stat_types now_hours = none
      ∧ ServeAction.buildFeatures ∈
          (predict_player_stats cache pid game_date (some stat_types) false
            now_hours built).2 := by
  intro cache pid game_date stat_types now_hours built
  have hmiss : getCachedPredictions cache pid game_date stat_types now_hours = none := by
    unfold getCachedPredictions
    dsimp only
    split
    · rfl
    · split <;> rfl
  refine ⟨hmiss, ?_⟩
  simp [predict_player_stats, hmiss]

/-- Claim C3 counterexample: a fitted `StatPredictor` whose raw regressor
output is negative returns that negative point estimate from
`predict_with_uncertainty` (the source clips only the bounds on this path),
and a fitted `EnsemblePredictor` whose members both output `-1` returns an
upper bound strictly below its lower bound. -/
theorem C3_counterexample :
    (statPredictWithUncertainty
        (⟨fun _ => -1, some (fun _ => 0), some (fun _ => 0)⟩ :
          StatPredictorM Unit) ()).1 < 0
  ∧ (ensemblePredictWithUncertainty
        (⟨fun _ => -1, fun _ => -1, 0.6, 0.4⟩ : EnsembleM Unit) ()).2.2
      < (ensemblePredictWithUncertainty
        (⟨fun _ => -1, fun _ => -1, 0.6, 0.4⟩ : EnsembleM Unit) ()).2.1 := by
  constructor
  · norm_num [statPredictWithUncertainty]
  · have hs : Real.sqrt ((|(-1 : ℝ) - (-1)| / 2) ^ 2
        + (((0.6 : ℝ) * (-1) + 0.4 * (-1)) * 0.15) ^ 2) = 0.15 := by
      rw [show (|(-1 : ℝ) - (-1)| / 2) ^ 2
          + (((0.6 : ℝ) * (-1) + 0.4 * (-1)) * 0.15) ^ 2 = (0.15 : ℝ) ^ 2 by
        norm_num]
      exact Real.sqrt_sq (by norm_num)
    simp only [ensemblePredictWithUncertainty]
    rw [hs]
    norm_num

/-- Claim C3 amended: `predict` clips the point estimate to be nonnegative
for both predictors; `predict_with_uncertainty` guarantees `lower ≥ 0` for
both and `upper ≥ lower` for `StatPredictor`, but returns the raw
(unclipped) point estimate; whenever that raw point estimate is
nonnegative, `point ≥ 0`, `lower ≥ 0` and `upper ≥ lower` all hold for
both predictors. -/
theorem C3_amended :
    (∀ (α : Type) (M : StatPredictorM α) (x : α), 0 ≤ statPredict M x)
  ∧ (∀ (α : Type) (M : StatPredictorM α) (x : α),
      0 ≤ (statPredictWithUncertainty M x).2.1
      ∧ (statPredictWithUncertainty M x).2.1 ≤ (statPredictWithUncertainty M x).2.2)
  ∧ (∀ (α : Type) (M : StatPredictorM α) (x : α),
      0 ≤ M.model x → 0 ≤ (statPredictWithUncertainty M x).1)
  ∧ (∀ (α : Type) (M : EnsembleM α) (x : α), 0 ≤ ensemblePredict M x)
  ∧ (∀ (α : Type) (M : EnsembleM α) (x : α),
      0 ≤ (ensemblePredictWithUncertainty M x).2.1)
  ∧ (∀ (α : Type) (M : EnsembleM α) (x : α),
      0 ≤ (ensemblePredictWithUncertainty M x).1 →
      (ensemblePredictWithUncertainty M x).2.1
        ≤ (ensemblePredictWithUncertainty M x).2.2) := by
  refine ⟨?_, ?_, ?_, ?_, ?_, ?_⟩
  · intro α M x
    exact le_max_right _ _
  · intro α M x
    exact ⟨le_max_right _ _, le_max_right _ _⟩
  · intro α M x h
    exact h
  · intro α M x
    exact le_max_right _ _
  · intro α M x
    exact le_max_right _ _
  · intro α M x hp
    have hsqrt : 0 ≤ Real.sqrt ((|M.xgb_model x - M.lgb_model x| / 2) ^ 2
        + ((M.w_xgb * M.xgb_model x + M.w_lgb * M.lgb_model x) * 0.15) ^ 2) :=
      Real.sqrt_nonneg _
    simp only [ensemblePredictWithUncertainty] at hp ⊢
    refine max_le (by nlinarith) (by nlinarith)

/-- Witness for the conditional parts of the amended C3 at concrete fitted
models with nonnegative raw outputs. -/
theorem C3_amended_witness :
    (0 ≤ (statPredictWithUncertainty
        (⟨fun _ => 5, none, none⟩ : StatPredictorM Unit) ()).1)
  ∧ ((ensemblePredictWithUncertainty
        (⟨fun _ => 2, fun _ => 4, 0.5, 0.5⟩ : EnsembleM Unit) ()).2.1
      ≤ (ensemblePredictWithUncertainty
        (⟨fun _ => 2, fun _ => 4, 0.5, 0.5⟩ : EnsembleM Unit) ()).2.2) :=
  ⟨C3_amended.2.2.1 Unit ⟨fun _ => 5, none, none⟩ () (by norm_num),
   C3_amended.2.2.2.2.2 Unit ⟨fun _ => 2, fun _ => 4, 0.5, 0.5⟩ ()
     (by simp only [ensemblePredictWithUncertainty]; norm_num)⟩

/-- Claim C4 counterexample: `register_model` flags every new entry active
without deactivating prior actives of the same stat type, so registering
two models for `fantasy_points` leaves two active entries — the at-most-one
invariant is violated by a registry operation. -/
theorem C4_counterexample :
    activeCount
      (register_model
        (register_model [] "fantasy_points_ensemble" "v1" "fantasy_points").1
        "fantasy_points_ensemble" "v2" "fantasy_points").1 "fantasy_points"
      = 2 := by
  decide

/-- Helper: activating `model_id` rewrites the active flags of the target
stat type so that exactly the entries keyed `model_id` (and carrying that
stat type) remain active. -/
theorem activeCount_activation_upd (t : Registry) (st mid : String) :
    activeCount (t.map (fun kv =>
      if kv.2.stat_type == st then (kv.1, { kv.2 with is_active := kv.1 == mid })
      else kv)) st
    = t.countP (fun kv => kv.1 == mid && kv.2.stat_type == st) := by
  unfold activeCount
  rw [← List.countP_eq_length_filter, List.countP_map]
  refine List.countP_congr (fun kv _ => ?_)
  by_cases h1 : kv.2.stat_type = st
  · by_cases h2 : kv.1 = mid <;> simp [Function.comp, h1, h2]
  · have hb : (kv.2.stat_type == st) = false := beq_false_of_ne h1
    simp [Function.comp, hb]

/-- Helper: a key absent from the registry matches no entry. -/
theorem countP_key_eq_zero (t : Registry) (mid st : String)
    (h : mid ∉ t.map Prod.fst) :
    t.countP (fun kv => kv.1 == mid && kv.2.stat_type == st) = 0 := by
  refine List.countP_eq_zero.mpr (fun kv hkv => ?_)
  have hne : kv.1 ≠ mid := fun he => h (he ▸ List.mem_map_of_mem Prod.fst hkv)
  simp [hne]

/-- Helper: with unique keys, exactly one entry matches the key found by
`lookup`, whatever its active flag was. -/
theorem countP_key_eq_one (t : Registry) (mid : String) (e : RegEntry)
    (hnd : (t.map Prod.fst).Nodup) (hl : t.lookup mid = some e) :
    t.countP (fun kv => kv.1 == mid && kv.2.stat_type == e.stat_type) = 1 := by
  induction t with
  | nil => cases hl
  | cons kv t ih =>
    obtain ⟨k, a⟩ := kv
    simp only [List.map_cons, List.nodup_cons] at hnd
    by_cases hk : mid = k
    · subst hk
      have ha : a = e := by simpa [List.lookup] using hl
      subst ha
      have hz := countP_key_eq_zero t mid a.stat_type hnd.1
      simp [List.countP_cons, hz]
    · have hl2 : t.lookup mid = some e := by
        simpa [List.lookup, beq_false_of_ne hk] using hl
      have hkb : (k == mid) = false := beq_false_of_ne (Ne.symm hk)
      simp [List.countP_cons, hkb, ih hnd.2 hl2]

/-- Claim C4 amended: `set_active_model(X)` for a model id present in a
registry with unique keys leaves exactly one active entry among all entries
with X's stat type, for any prior active-state configuration, and
`delete_model` never increases the number of active entries of any stat
type; but `register_model` activates unconditionally (see the
counterexample), so the at-most-one invariant is not preserved by every
registry operation. -/
theorem C4_single_active_amended :
    (∀ (reg : Registry) (model_id : String) (e : RegEntry),
      (reg.map Prod.fst).Nodup → reg.lookup model_id = some e →
      activeCount (set_active_model reg model_id).1 e.stat_type = 1)
  ∧ (∀ (reg : Registry) (model_id stat_type : String),
      activeCount (delete_model reg model_id).1 stat_type
        ≤ activeCount reg stat_type) := by
  constructor
  · intro reg model_id e hnd hl
    unfold set_active_model
    rw [hl]
    rw [activeCount_activation_upd]
    exact countP_key_eq_one reg model_id e hnd hl
  · intro reg model_id stat_type
    unfold delete_model
    split
    · exact ((List.filter_sublist
        (p := fun kv => kv.1 != model_id) reg).filter _).length_le
    · exact le_rfl

/-- Witness for the amended C4 at a concrete registry in which both entries
of the stat type started active. -/
theorem C4_amended_witness :
    ((twoActiveRegistry.map Prod.fst).Nodup
      ∧ twoActiveRegistry.lookup "m_v2" = some entryV2)
    ∧ activeCount (set_active_model twoActiveRegistry "m_v2").1
        entryV2.stat_type = 1 :=
  ⟨⟨by decide, by decide⟩,
   C4_single_active_amended.1 twoActiveRegistry "m_v2" entryV2
     (by decide) (by decide)⟩

/-- Claim C1: strict as-of exclusion — for every player, as-of date and
lookback, two histories that agree on all records dated strictly before
the as-of date (and may differ arbitrarily on records dated on or after
it) produce identical feature vectors. -/
theorem C1_no_leakage (f : ℚ → ℚ) (players : List Player)
    (h₁ h₂ : List StatRow) (pid : Nat) (as_of_date lookback_days today : Int)
    (hagree : h₁.filter (fun r => decide (r.game_date < as_of_date))
      = h₂.filter (fun r => decide (r.game_date < as_of_date))) :
    build_player_features f players h₁ pid as_of_date lookback_days today
      = build_player_features f players h₂ pid as_of_date lookback_days today := by
  have hstats : getPlayerStats h₁ pid (as_of_date - lookback_days) as_of_date
      = getPlayerStats h₂ pid (as_of_date - lookback_days) as_of_date := by
    unfold getPlayerStats
    rw [← List.filter_filter, ← List.filter_filter, hagree,
      List.filter_filter, List.filter_filter]
  unfold build_player_features
  rw [hstats]

/-- Witness for C1: the spec's leakage probe — inserting a synthetic record
with extreme values dated exactly on the as-of day leaves the feature
vector unchanged. -/
theorem C1_witness :
    [ordinaryRow].filter (fun r => decide (r.game_date < (100 : Int)))
      = [ordinaryRow, extremeRow].filter (fun r => decide (r.game_date < (100 : Int)))
    ∧ build_player_features (fun q => q) onePlayerRoster [ordinaryRow] 1 100 90 200
      = build_player_features (fun q => q) onePlayerRoster
          [ordinaryRow, extremeRow] 1 100 90 200 :=
  ⟨by decide,
   C1_no_leakage (fun q => q) onePlayerRoster [ordinaryRow]
     [ordinaryRow, extremeRow] 1 100 90 200 (by decide)⟩

/-- Claim C2 counterexample: with an identical empty history and identical
`(player_id, as_of_date, lookback_days)`, two calls made on different
wall-clock days return different feature vectors for a player with a known
birth date — `player_age` is computed from `date.today()`. -/
theorem C2_counterexample :
    build_player_features (fun _ => 0) [bornPlayer] [] 1 100 90 10000
      ≠ build_player_features (fun _ => 0) [bornPlayer] [] 1 100 90 10365 := by
  intro h
  have h2 := congrArg (Except.map (List.lookup "player_age")) h
  rw [show (build_player_features (fun _ => 0) [bornPlayer] [] 1 100 90
        10000).map (List.lookup "player_age")
      = Except.ok (some (FVal.num (((10000 - 0 : Int) : ℚ) * 4 / 1461))) from rfl,
    show (build_player_features (fun _ => 0) [bornPlayer] [] 1 100 90
        10365).map (List.lookup "player_age")
      = Except.ok (some (FVal.num (((10365 - 0 : Int) : ℚ) * 4 / 1461))) from rfl]
    at h2
  simp only [Except.ok.injEq, Option.some.injEq, FVal.num.injEq] at h2
  norm_num at h2

/-- Helper: association-list lookup distributes over concatenation. -/
theorem lookup_append (k : String) (l₁ l₂ : FeatureMap) :
    List.lookup k (l₁ ++ l₂) = (List.lookup k l₁).or (List.lookup k l₂) := by
  induction l₁ with
  | nil => simp [List.lookup]
  | cons a t ih =>
    obtain ⟨ka, va⟩ := a
    simp only [List.cons_append, List.lookup]
    cases h : k == ka <;> simp [ih]

/-- Helper: the info features of the same player on two wall-clock days
agree on every key other than `player_age`. -/
theorem lookup_infoFeatures_ne_age (p : Player) (t₁ t₂ : Int) (k : String)
    (hk : k ≠ "player_age") :
    List.lookup k (infoFeatures p t₁) = List.lookup k (infoFeatures p t₂) := by
  have hb : (k == "player_age") = false := beq_false_of_ne hk
  simp [infoFeatures, List.lookup, hb]

/-- Claim C2 amended: the feature build is a pure function of
`(player, history, as_of_date, lookback_days)` and the wall-clock date —
two calls at different wall-clock times agree on the whole vector when the
player's birth date is unknown, and in general agree on every feature
other than `player_age` (whose value is derived from `date.today()`). -/
theorem C2_pure_modulo_wall_clock (f : ℚ → ℚ) (players : List Player)
    (db : List StatRow) (pid : Nat) (as_of_date lookback_days t₁ t₂ : Int) :
    ((∀ p, findPlayer players pid = some p → p.birth_date = none) →
      build_player_features f players db pid as_of_date lookback_days t₁
        = build_player_features f players db pid as_of_date lookback_days t₂)
  ∧ (∀ k : String, k ≠ "player_age" →
      (build_player_features f players db pid as_of_date lookback_days t₁).map
          (List.lookup k)
        = (build_player_features f players db pid as_of_date lookback_days t₂).map
          (List.lookup k)) := by
  constructor
  · intro hb
    cases hfind : findPlayer players pid with
    | none => simp [build_player_features, hfind]
    | some p =>
      have hinfo : infoFeatures p t₁ = infoFeatures p t₂ := by
        simp [infoFeatures, hb p hfind]
      have hempty : emptyFeatures p t₁ = emptyFeatures p t₂ := by
        unfold emptyFeatures
        rw [hinfo]
      have hbuilt : buildFromStats f p
            (getPlayerStats db pid (as_of_date - lookback_days) as_of_date)
            as_of_date t₁
          = buildFromStats f p
            (getPlayerStats db pid (as_of_date - lookback_days) as_of_date)
            as_of_date t₂ := by
        unfold buildFromStats
        rw [hinfo]
      simp only [build_player_features, hfind]
      rw [hempty, hbuilt]
  · intro k hk
    cases hfind : findPlayer players pid with
    | none => simp [build_player_features, hfind, Except.map]
    | some p =>
      have hinfo := lookup_infoFeatures_ne_age p t₁ t₂ k hk
      have hempty : List.lookup k (emptyFeatures p t₁)
          = List.lookup k (emptyFeatures p t₂) := by
        unfold emptyFeatures
        rw [lookup_append k (infoFeatures p t₁),
          lookup_append k (infoFeatures p t₂), hinfo]
      have hbuilt : List.lookup k (buildFromStats f p
            (getPlayerStats db pid (as_of_date - lookback_days) as_of_date)
            as_of_date t₁)
          = List.lookup k (buildFromStats f p
            (getPlayerStats db pid (as_of_date - lookback_days) as_of_date)
            as_of_date t₂) := by
        unfold buildFromStats
        rw [lookup_append k (infoFeatures p t₁),
          lookup_append k (infoFeatures p t₂), hinfo]
      simp only [build_player_features, hfind]
      by_cases hs : (getPlayerStats db pid (as_of_date - lookback_days)
          as_of_date).isEmpty = true
      · rw [if_pos hs, if_pos hs]
        simp only [Except.map]
        rw [hempty]
      · rw [if_neg hs, if_neg hs]
        simp only [Except.map]
        rw [hbuilt]

/-- Witness for the amended C2: a player with unknown birth date gets an
identical vector across wall-clock days, and for the player with a known
birth date the `games_played` feature (any non-age key) agrees across
wall-clock days. -/
theorem C2_amended_witness :
    ((∀ p, findPlayer onePlayerRoster 1 = some p → p.birth_date = none)
      ∧ build_player_features (fun q => q) onePlayerRoster [ordinaryRow] 1 100 90 200
        = build_player_features (fun q => q) onePlayerRoster [ordinaryRow] 1 100 90 300)
    ∧ (("games_played" : String) ≠ "player_age"
      ∧ (build_player_features (fun q => q) [bornPlayer] [] 1 100 90 200).map
          (List.lookup "games_played")
        = (build_player_features (fun q => q) [bornPlayer] [] 1 100 90 300).map
          (List.lookup "games_played")) :=
  ⟨⟨fun p hp => by
      have : p = { id := 1, position := some "PG", birth_date := none } := by
        cases hp
        rfl
      rw [this],
    (C2_pure_modulo_wall_clock (fun q => q) onePlayerRoster [ordinaryRow]
        1 100 90 200 300).1
      (fun p hp => by
        have : p = { id := 1, position := some "PG", birth_date := none } := by
          cases hp
          rfl
        rw [this])⟩,
   ⟨by decide,
    (C2_pure_modulo_wall_clock (fun q => q) [bornPlayer] [] 1 100 90 200 300).2
      "games_played" (by decide)⟩⟩

/-- Claim C5 (code bug): the training-data loader labels every example with
the record's `fantasy_points`, whatever target stat was requested.
At a concrete store whose single record has `points = 10` and
`fantasy_points = 45.5`, requesting `stat_type = "points"` produces one
example whose target is `45.5` — the fantasy-points value, not the
requested statistic — for every interpretation of the standard-deviation
root (the target does not depend on the feature values at all). -/
theorem C5_label_ignores_requested_stat :
    ∀ f : ℚ → ℚ,
      (load_training_data f loaderRoster [loaderRow] 100 100 "points" 1 200).map
          Prod.snd = [45.5]
      ∧ loaderRow.points = some 10
      ∧ loaderRow.fantasy_points = some 45.5
      ∧ (45.5 : ℚ) ≠ 10 :=
  fun f => ⟨rfl, rfl, rfl, by norm_num⟩

/-- Witness for C8: weights `(1, 1)` (sum 2, off by more than 0.01) are
rejected at construction. -/
theorem C8_witness :
    (1 : ℚ) / 100 < |((1 : ℚ), (1 : ℚ)).1 + ((1 : ℚ), (1 : ℚ)).2 - 1|
    ∧ ensembleInitWeights (some (1, 1)) = Except.error "Weights must sum to 1.0" :=
  ⟨by norm_num, C8_ensemble_weight_invariant.1 (1, 1) (by norm_num)⟩
